import Mathlib

/-!
Shallow embedding of `crates/always-online-node/src/main.rs`.

The program is a single binary: it launches a Holochain runtime, installs a
desired list of hApp bundles (skipping the ones already installed), calls the
`init` zome function once per provisioned cell, and then enters a monitoring
loop that restarts the runtime on a reachability flip of the signal server and
on a 30-minute schedule.

External collaborators (bundle reader, conductor admin/app websockets, signal
server probe) are modelled as oracles collected in an `Env` record; each oracle
returns `Option`/`Bool` to represent the fallible calls whose errors the code
propagates with `?`.  Observable calls made by the program (install requests,
zome calls, shutdowns, launches, log lines) are recorded as an `Event` trace so
that the claims about "how many install calls" or "which configuration was the
runtime relaunched with" can be stated as facts about the trace.
-/

/-- Relay/signal endpoint, constant `SIGNAL_URL` in `main.rs`. -/
def SIGNAL_URL : String := "wss://sbd.holo.host"

/-- Bootstrap endpoint, constant `BOOTSTRAP_URL` in `main.rs`. -/
def BOOTSTRAP_URL : String := "https://bootstrap.holo.host"

/-- WAN network configuration value (`WANNetworkConfig` in `main.rs`). -/
structure WANNetworkConfig where
  signal_url : String
  bootstrap_url : String
  ice_servers_urls : List String
  deriving DecidableEq

/-- `wan_network_config()` from `main.rs` lines 36-42: the WAN-enabled
configuration, always `Some` with the two constant URLs. -/
def wan_network_config : Option WANNetworkConfig :=
  some { signal_url := SIGNAL_URL, bootstrap_url := BOOTSTRAP_URL, ice_servers_urls := [] }

/-- The wan-config actually passed to `HolochainRuntimeConfig::new`: the
`match args.lan_only` expression appearing at lines 95-98, 189-192 and 206-209
of `main.rs`.  It depends only on the `--lan-only` flag. -/
def wan_config (lan_only : Bool) : Option WANNetworkConfig :=
  match lan_only with
  | true => none
  | false => wan_network_config

/-- `HolochainRuntimeConfig::new(data_dir, wan_config)`: what a runtime is
launched with. -/
structure HolochainRuntimeConfig where
  data_dir : String
  wan : Option WANNetworkConfig
  deriving DecidableEq

/-- A bundle file path (`PathBuf` in `main.rs`). -/
abbrev BundlePath := String

/-- The part of an `AppBundle` manifest the program reads: `app_name()`. -/
structure AppManifest where
  app_name : String
  deriving DecidableEq

/-- An application bundle: manifest plus the rest of its content (payload
bytes), which the program never inspects. -/
structure AppBundle where
  manifest : AppManifest
  payload : List Nat
  deriving DecidableEq

/-- The identifier the program uses for a bundle:
`happ_bundle.manifest().app_name().to_string()` (`main.rs` line 118). -/
def AppBundle.app_id (b : AppBundle) : String :=
  b.manifest.app_name

/-- A cell identifier: DNA hash plus agent key (opaque here). -/
structure CellId where
  dna_hash : Nat
  agent_key : Nat
  deriving DecidableEq

/-- `CellInfo` as matched by the program: provisioned, cloned, or stem. -/
inductive CellInfo where
  | Provisioned (id : CellId)
  | Cloned (id : CellId)
  | Stem
  deriving DecidableEq

/-- `cell_id` from `main.rs` lines 225-231: provisioned and cloned cells have a
cell id, stem cells do not. -/
def cell_id (c : CellInfo) : Option CellId :=
  match c with
  | CellInfo.Provisioned p => some p
  | CellInfo.Cloned cl => some cl
  | CellInfo.Stem => none

/-- The part of a DNA definition the program reads: the names of the
coordinator zomes (the program uses `coordinator_zomes.first()`). -/
structure DnaDef where
  coordinator_zomes : List String
  deriving DecidableEq

/-- `AppInfo` as used by the program: the `cell_info` map from role name to the
cells provisioned under that role. -/
structure AppInfo where
  cell_info : List (String × List CellInfo)
  deriving DecidableEq

/-- All cells of an `AppInfo`, in the order the nested `for` loops at
`main.rs` lines 135-136 visit them. -/
def AppInfo.allCells (info : AppInfo) : List CellInfo :=
  info.cell_info.flatMap Prod.snd

/-- `ExternIO::encode(())`: the MessagePack encoding of the unit value, the
single byte 0xC0 (nil) — the "empty payload" of the init call. -/
def encodeUnit : List Nat := [192]

/-- Observable calls the program makes, recorded in order. -/
inductive Event where
  /-- An `install_app` request with the given app id (`main.rs` line 126). -/
  | install (app_id : String)
  /-- A `call_zome` request: cell, zome name, payload (`main.rs` lines 149-157). -/
  | initCall (cell : CellId) (zome : String) (payload : List Nat)
  /-- A `conductor_handle.shutdown()` call and whether it succeeded. -/
  | shutdown (ok : Bool)
  /-- A `HolochainRuntime::launch` call with its configuration. -/
  | launch (cfg : HolochainRuntimeConfig)
  /-- A log line. -/
  | logMsg (msg : String)
  deriving DecidableEq

/-- Oracles for the external collaborators: `none`/`false` is the error case
the program propagates with `?`. -/
structure Env where
  /-- `read_from_file`: parse a bundle from a path; `none` is a parse error. -/
  parse : BundlePath → Option AppBundle
  /-- `runtime.install_app`: `none` is an install error. -/
  install_app : String → AppBundle → Option AppInfo
  /-- `runtime.app_websocket`: whether opening the app websocket succeeds. -/
  app_ws_ok : String → Bool
  /-- `admin_ws.get_dna_definition`: `none` is an admin error. -/
  get_dna_definition : Nat → Option DnaDef
  /-- `app_ws.call_zome` on the init entry point: whether the call succeeds. -/
  call_zome_ok : CellId → String → Bool

/-- The per-cell initialization loop (`main.rs` lines 135-159): for each cell
with a cell id, fetch its DNA definition, and if it has at least one
coordinator zome, call `init` on the first one with the unit payload.  Every
failure is propagated with `?`, aborting the whole `main`.  Returns the events
emitted so far together with the outcome. -/
def initCells (env : Env) (cells : List CellInfo) :
    List Event × Except String Unit :=
  match cells with
  | [] => ([], Except.ok ())
  | c :: rest =>
    match cell_id c with
    | none => initCells env rest
    | some cid =>
      match env.get_dna_definition cid.dna_hash with
      | none => ([], Except.error "get_dna_definition failed")
      | some dna_def =>
        match dna_def.coordinator_zomes.head? with
        | none => initCells env rest
        | some zome =>
          if env.call_zome_ok cid zome then
            let r := initCells env rest
            (Event.initCall cid zome encodeUnit :: r.1, r.2)
          else
            ([Event.initCall cid zome encodeUnit], Except.error "call_zome failed")

/-- The install pass (`main.rs` lines 115-165): for each bundle path, parse the
bundle, derive its id, and unless that id is among the installed apps, install
it, open its app websocket and initialize its cells.  `installed` is the list
of installed app ids read once before the loop (lines 105-113) and never
updated during the pass.  Any failure is propagated with `?`, aborting `main`.
Returns the events emitted and either the newly installed app ids or the
error. -/
def installPass (env : Env) (installed : List String) :
    List BundlePath → List Event × Except String (List String)
  | [] => ([], Except.ok [])
  | p :: rest =>
    match env.parse p with
    | none => ([], Except.error ("read_from_file failed: " ++ p))
    | some bundle =>
      let app_id := bundle.app_id
      if app_id ∈ installed then
        installPass env installed rest
      else
        match env.install_app app_id bundle with
        | none => ([Event.install app_id], Except.error ("install_app failed: " ++ app_id))
        | some info =>
          if env.app_ws_ok app_id then
            let ic := initCells env info.allCells
            match ic.2 with
            | Except.error e => (Event.install app_id :: ic.1, Except.error e)
            | Except.ok _ =>
              let r := installPass env installed rest
              (Event.install app_id :: (ic.1 ++ r.1),
               Except.map (fun ids => app_id :: ids) r.2)
          else
            ([Event.install app_id], Except.error ("app_websocket failed: " ++ app_id))

/-- The install-call attempts in a trace, in order. -/
def installCalls (evs : List Event) : List String :=
  evs.filterMap (fun e =>
    match e with
    | Event.install a => some a
    | _ => none)

/-! ## The monitoring loop (`main.rs` lines 169-215)

State carried across iterations: `last_can_connect` (line 169) and
`last_boot_time` (line 173, here a wall-clock instant in seconds).  Per-cycle
inputs: the probe result, the current wall-clock instant, and the outcome of
each shutdown/launch the cycle may perform.  One iteration of the `loop` is
`loopCycle`; it first runs the reachability-flip branch (lines 180-195), then
the scheduled-reboot branch (lines 197-212); each branch shuts the runtime
down and relaunches it, propagating failures with `?` (fatal). -/

/-- The supervisor state across loop iterations. -/
structure LoopState where
  last_can_connect : Bool
  last_boot_time : Nat
  deriving DecidableEq

/-- Per-cycle inputs: the probe result for this iteration, the wall-clock
instant at the scheduled-reboot check, and the outcomes of the (up to two)
shutdown and launch calls this iteration may make. -/
structure CycleInput where
  can_connect : Bool
  now : Nat
  shutdown_ok_flip : Bool
  launch_ok_flip : Bool
  shutdown_ok_sched : Bool
  launch_ok_sched : Bool
  deriving DecidableEq

/-- Outcome of one loop iteration: continue with a new state, or a fatal error
(an `Err` propagated out of `main`, ending the process with nonzero status). -/
inductive CycleResult where
  | next (s : LoopState)
  | fatal (msg : String)
  deriving DecidableEq

/-- `Duration::from_secs(30 * 60)`: the scheduled-reboot ceiling, in seconds. -/
def REBOOT_INTERVAL : Nat := 30 * 60

/-- The log line of the scheduled-reboot branch (`main.rs` line 200). -/
def schedLogMsg : String := "Performing scheduled reboot every 30 mins."

/-- The log line of the reachability-flip branch (`main.rs` lines 182-184),
which announces a mode change in the direction of the new probe result. -/
def flipLogMsg (can_connect : Bool) : String :=
  if can_connect then "Changing from LAN only to WAN only"
  else "Changing from WAN only to LAN only"

/-- The shutdown-then-relaunch sequence that both restart branches duplicate
verbatim (`main.rs` lines 186-194 and 203-211): shut the conductor down
(`shutdown().await?` then `result?`), and only on success launch a new runtime
with `HolochainRuntimeConfig::new(data_dir, wan_config args.lan_only)` against
the same data dir.  Returns the trace of the attempt, and `none` on success or
the fatal error message. -/
def restartRuntime (lan_only : Bool) (data_dir : String) (sd_ok launch_ok : Bool) :
    List Event × Option String :=
  if sd_ok then
    if launch_ok then
      ([Event.shutdown true,
        Event.launch { data_dir := data_dir, wan := wan_config lan_only }], none)
    else
      ([Event.shutdown true], some "launch failed")
  else
    ([Event.shutdown false], some "shutdown failed")

/-- The scheduled-reboot branch, `main.rs` lines 197-212.  `elapsed()` errors
when the clock went backwards (`now < last_boot_time`); the code propagates
that with `?`.  The branch fires when the elapsed time strictly exceeds
`REBOOT_INTERVAL`; it then resets `last_boot_time` to `now` and restarts the
runtime.  `acc` is the event trace of the earlier part of the iteration. -/
def scheduledCheck (lan_only : Bool) (data_dir : String) (s : LoopState)
    (i : CycleInput) (acc : List Event) : List Event × CycleResult :=
  if i.now < s.last_boot_time then
    (acc, CycleResult.fatal "elapsed failed")
  else if REBOOT_INTERVAL < i.now - s.last_boot_time then
    let ev := Event.logMsg schedLogMsg
    let r := restartRuntime lan_only data_dir i.shutdown_ok_sched i.launch_ok_sched
    match r.2 with
    | some m => (acc ++ ev :: r.1, CycleResult.fatal m)
    | none => (acc ++ ev :: r.1, CycleResult.next { s with last_boot_time := i.now })
  else
    (acc, CycleResult.next s)

/-- One iteration of the monitoring `loop`, `main.rs` lines 175-215: the
reachability-flip branch (lines 180-195) followed by the scheduled-reboot
branch (lines 197-212).  On a flip the code logs the direction, records the
new probe result, and restarts the runtime with `wan_config args.lan_only`
against the same data dir; shutdown or launch failure is propagated with `?`
(fatal). -/
def loopCycle (lan_only : Bool) (data_dir : String) (s : LoopState)
    (i : CycleInput) : List Event × CycleResult :=
  if s.last_can_connect ≠ i.can_connect then
    let ev := Event.logMsg (flipLogMsg i.can_connect)
    let s1 : LoopState := { s with last_can_connect := i.can_connect }
    let r := restartRuntime lan_only data_dir i.shutdown_ok_flip i.launch_ok_flip
    match r.2 with
    | some m => (ev :: r.1, CycleResult.fatal m)
    | none => scheduledCheck lan_only data_dir s1 i (ev :: r.1)
  else
    scheduledCheck lan_only data_dir s i []

/-- The launch configurations in a trace, in order. -/
def launchedConfigs (evs : List Event) : List HolochainRuntimeConfig :=
  evs.filterMap (fun e =>
    match e with
    | Event.launch cfg => some cfg
    | _ => none)

/-- Whether the scheduled-reboot branch fired in a trace, identified by its
log line. -/
def scheduledFired (evs : List Event) : Prop :=
  Event.logMsg schedLogMsg ∈ evs

instance (evs : List Event) : Decidable (scheduledFired evs) :=
  inferInstanceAs (Decidable (Event.logMsg schedLogMsg ∈ evs))

/-- The init call `initCells` makes for one cell, if any: present exactly when
the cell has a cell id whose DNA definition is available and has at least one
coordinator zome. -/
def initEvent (env : Env) (c : CellInfo) : Option Event :=
  match cell_id c with
  | none => none
  | some cid =>
    match env.get_dna_definition cid.dna_hash with
    | none => none
    | some d =>
      match d.coordinator_zomes.head? with
      | none => none
      | some z => some (Event.initCall cid z encodeUnit)

/-- The cell a trace event addresses, if it is a zome call. -/
def eventCell (e : Event) : Option CellId :=
  match e with
  | Event.initCall c _ _ => some c
  | _ => none

/-- How many zome calls a trace makes on a given cell. -/
def initCallsFor (evs : List Event) (cid : CellId) : Nat :=
  (evs.filter (fun e => eventCell e == some cid)).length

/-- Whether an event is a runtime launch. -/
def isLaunch (e : Event) : Bool :=
  match e with
  | Event.launch _ => true
  | _ => false

/-- Whether an event is a successful shutdown. -/
def isShutdownOk (e : Event) : Bool :=
  match e with
  | Event.shutdown true => true
  | _ => false

/-- Bundles for the C1 counterexample: byte-different content (payloads differ)
under the same manifest app name. -/
def c1_bundle_a : AppBundle := { manifest := { app_name := "forum" }, payload := [0] }

/-- Second C1 bundle: same app name as `c1_bundle_a`, different payload. -/
def c1_bundle_b : AppBundle := { manifest := { app_name := "forum" }, payload := [1] }

/-- Environment for the C1 witness: one parseable bundle. -/
def c1_env : Env where
  parse := fun p => if p = "forum.happ" then some c1_bundle_a else none
  install_app := fun _ _ => some { cell_info := [] }
  app_ws_ok := fun _ => true
  get_dna_definition := fun _ => none
  call_zome_ok := fun _ _ => true

/-- Environment for the C2 witness: a single bundle named `app1` with no
cells; all collaborator calls succeed. -/
def c2_env : Env where
  parse := fun p => if p = "app1.happ" then some { manifest := { app_name := "app1" }, payload := [1] } else none
  install_app := fun _ _ => some { cell_info := [] }
  app_ws_ok := fun _ => true
  get_dna_definition := fun _ => none
  call_zome_ok := fun _ _ => true

/-- Environment for C3: three desired bundle paths of which the second fails
to parse; installs succeed and installed apps have no cells. -/
def c3_env : Env where
  parse := fun p =>
    match p with
    | "a.happ" => some { manifest := { app_name := "app1" }, payload := [1] }
    | "c.happ" => some { manifest := { app_name := "app3" }, payload := [3] }
    | _ => none
  install_app := fun _ _ => some { cell_info := [] }
  app_ws_ok := fun _ => true
  get_dna_definition := fun _ => none
  call_zome_ok := fun _ _ => true

/-- Cells for the C8 witness: two provisioned cells; the first one's DNA has a
coordinator zome, the second one's has none. -/
def c8_cells : List CellInfo :=
  [CellInfo.Provisioned { dna_hash := 1, agent_key := 10 },
   CellInfo.Provisioned { dna_hash := 2, agent_key := 20 }]

/-- Environment for the C8 witness. -/
def c8_env : Env where
  parse := fun _ => none
  install_app := fun _ _ => none
  app_ws_ok := fun _ => true
  get_dna_definition := fun h =>
    if h = 1 then some { coordinator_zomes := ["main"] }
    else if h = 2 then some { coordinator_zomes := [] }
    else none
  call_zome_ok := fun _ _ => true

/-- If an install pass succeeds, every desired bundle parses and its derived
identifier is either already installed or among the newly installed ids. -/
lemma installPass_covers (env : Env) :
    ∀ (paths : List BundlePath) (installed : List String) (evs : List Event)
      (newIds : List String),
    installPass env installed paths = (evs, Except.ok newIds) →
    ∀ p ∈ paths, ∃ b, env.parse p = some b ∧ (b.app_id ∈ installed ∨ b.app_id ∈ newIds) := by
  intro paths
  induction paths with
  | nil =>
    intro installed evs newIds _ p hp
    simp at hp
  | cons q rest ih =>
    intro installed evs newIds h p hp
    rw [installPass] at h
    cases hq : env.parse q with
    | none =>
      rw [hq] at h
      simp at h
    | some b =>
      rw [hq] at h
      simp only at h
      by_cases hmem : b.app_id ∈ installed
      · rw [if_pos hmem] at h
        rcases List.mem_cons.mp hp with rfl | hp'
        · exact ⟨b, hq, Or.inl hmem⟩
        · exact ih installed evs newIds h p hp'
      · rw [if_neg hmem] at h
        cases hinst : env.install_app b.app_id b with
        | none =>
          rw [hinst] at h
          simp at h
        | some info =>
          rw [hinst] at h
          simp only at h
          cases hws : env.app_ws_ok b.app_id with
          | false =>
            rw [hws] at h
            simp at h
          | true =>
            rw [hws] at h
            simp only [if_true] at h
            cases hic : (initCells env info.allCells).2 with
            | error e =>
              rw [hic] at h
              simp at h
            | ok u =>
              rw [hic] at h
              simp only at h
              have h2 := congrArg Prod.snd h
              simp only at h2
              cases hr : (installPass env installed rest).2 with
              | error e =>
                rw [hr] at h2
                simp [Except.map] at h2
              | ok ids =>
                rw [hr] at h2
                simp only [Except.map] at h2
                have hids : newIds = b.app_id :: ids := by
                  cases h2
                  rfl
                rcases List.mem_cons.mp hp with rfl | hp'
                · exact ⟨b, hq, Or.inr (by rw [hids]; exact List.mem_cons_self ..)⟩
                · have := ih installed (installPass env installed rest).1 ids ?_ p hp'
                  · rcases this with ⟨b', hb', hor⟩
                    refine ⟨b', hb', ?_⟩
                    rcases hor with hA | hB
                    · exact Or.inl hA
                    · exact Or.inr (by rw [hids]; exact List.mem_cons_of_mem _ hB)
                  · rw [← hr]

/-- An install pass in which every desired bundle parses to an
already-installed identifier does nothing: no events and no new installs. -/
lemma installPass_all_skipped (env : Env) :
    ∀ (paths : List BundlePath) (installed : List String),
    (∀ p ∈ paths, ∃ b, env.parse p = some b ∧ b.app_id ∈ installed) →
    installPass env installed paths = ([], Except.ok []) := by
  intro paths
  induction paths with
  | nil =>
    intro installed _
    rw [installPass]
  | cons q rest ih =>
    intro installed hall
    obtain ⟨b, hq, hmem⟩ := hall q (List.mem_cons_self ..)
    rw [installPass, hq]
    simp only [if_pos hmem]
    exact ih installed (fun p hp => hall p (List.mem_cons_of_mem _ hp))

/-- The cell-initialization loop makes no install calls. -/
lemma installCalls_initCells (env : Env) :
    ∀ cells : List CellInfo, installCalls (initCells env cells).1 = [] := by
  intro cells
  induction cells with
  | nil => rfl
  | cons c rest ih =>
    rw [initCells]
    cases cell_id c with
    | none => exact ih
    | some cid =>
      dsimp only
      cases env.get_dna_definition cid.dna_hash with
      | none => rfl
      | some d =>
        dsimp only
        cases d.coordinator_zomes.head? with
        | none => exact ih
        | some z =>
          dsimp only
          cases hc : env.call_zome_ok cid z with
          | false => simp [installCalls]
          | true =>
            simp only [if_pos rfl, installCalls, List.filterMap_cons]
            simpa [installCalls] using ih

/-- C2: reconciliation is idempotent.  If an install pass over `paths` succeeds
returning `newIds`, and the installed set changes only by gaining exactly those
newly installed ids, then a second pass over the same desired list performs no
install calls (its trace is empty) and reports nothing newly installed,
because every descriptor's identifier is already present and is skipped. -/
theorem c2_second_reconcile_no_installs (env : Env) (installed : List String)
    (paths : List BundlePath) (evs : List Event) (newIds : List String)
    (h : installPass env installed paths = (evs, Except.ok newIds)) :
    installPass env (installed ++ newIds) paths = ([], Except.ok []) ∧
    installCalls (installPass env (installed ++ newIds) paths).1 = [] := by
  have hcov := installPass_covers env paths installed evs newIds h
  have hall : ∀ p ∈ paths, ∃ b, env.parse p = some b ∧ b.app_id ∈ installed ++ newIds := by
    intro p hp
    obtain ⟨b, hb, hor⟩ := hcov p hp
    exact ⟨b, hb, List.mem_append.mpr hor⟩
  have h2 := installPass_all_skipped env paths (installed ++ newIds) hall
  exact ⟨h2, by rw [h2]; rfl⟩

/-- C2 witness: concrete instance — after installing `app1`, a second pass over
the same single-bundle list does nothing. -/
theorem c2_witness :
    installPass c2_env ([] ++ ["app1"]) ["app1.happ"] = ([], Except.ok []) ∧
    installCalls (installPass c2_env ([] ++ ["app1"]) ["app1.happ"]).1 = [] :=
  c2_second_reconcile_no_installs c2_env [] ["app1.happ"] [Event.install "app1"] ["app1"] (by rfl)

/-- C1 counterexample: two byte-different bundles (payloads differ) with the
same manifest app name get the identical identifier, so a bundle with changed
content does not get a different identifier and is not treated as a distinct
application — the identifier is not a content hash. -/
theorem c1_counterexample :
    c1_bundle_a ≠ c1_bundle_b ∧ c1_bundle_a.app_id = c1_bundle_b.app_id := by
  exact ⟨by decide, rfl⟩

/-- C1 (amended): the identifier used to decide installation is the bundle
manifest's app name.  It is deterministic (byte-identical bundles get
identical identifiers), two bundles get the same identifier exactly when
their app names agree, and a bundle whose app name is already in the
installed set is skipped by the install pass. -/
theorem c1_identifier_is_app_name :
    (∀ b1 b2 : AppBundle, b1 = b2 → b1.app_id = b2.app_id) ∧
    (∀ b1 b2 : AppBundle, b1.app_id = b2.app_id ↔ b1.manifest.app_name = b2.manifest.app_name) ∧
    (∀ (env : Env) (installed : List String) (p : BundlePath) (b : AppBundle),
      env.parse p = some b → b.app_id ∈ installed →
      installPass env installed [p] = ([], Except.ok [])) := by
  refine ⟨fun b1 b2 h => by rw [h], fun b1 b2 => Iff.rfl, ?_⟩
  intro env installed p b hp hmem
  refine installPass_all_skipped env [p] installed ?_
  intro q hq
  rw [List.mem_singleton] at hq
  subst hq
  exact ⟨b, hp, hmem⟩

/-- C1 witness: concrete instance of the skip behaviour — a bundle whose app
name `forum` is already installed is skipped. -/
theorem c1_witness :
    installPass c1_env ["forum"] ["forum.happ"] = ([], Except.ok []) :=
  c1_identifier_is_app_name.2.2 c1_env ["forum"] "forum.happ" c1_bundle_a (by rfl) (by decide)

/-- C3 (amended): a per-application failure is fatal to the whole batch.  With
three desired descriptors of which the second fails to parse, the pass
installs the first, then aborts with the read error naming the second path;
the third descriptor is never processed and nothing is reported as newly
installed (the result is an error, not a list of ids). -/
theorem c3_failure_aborts_batch (env : Env) (installed : List String)
    (p1 p2 p3 : BundlePath) (b1 : AppBundle) (info1 : AppInfo) (evs1 : List Event)
    (h1 : env.parse p1 = some b1)
    (hmem : b1.app_id ∉ installed)
    (hinst : env.install_app b1.app_id b1 = some info1)
    (hws : env.app_ws_ok b1.app_id = true)
    (hic : initCells env info1.allCells = (evs1, Except.ok ()))
    (h2 : env.parse p2 = none) :
    installPass env installed [p1, p2, p3] =
      (Event.install b1.app_id :: evs1, Except.error ("read_from_file failed: " ++ p2)) ∧
    installCalls (installPass env installed [p1, p2, p3]).1 = [b1.app_id] := by
  have hstep : installPass env installed [p1, p2, p3] =
      (Event.install b1.app_id :: evs1, Except.error ("read_from_file failed: " ++ p2)) := by
    rw [installPass, h1]
    simp only [if_neg hmem]
    rw [hinst]
    simp only [hws, if_pos rfl, hic]
    rw [installPass, h2]
    simp [Except.map]
  refine ⟨hstep, ?_⟩
  rw [hstep]
  simp only [installCalls, List.filterMap_cons]
  have := installCalls_initCells env info1.allCells
  rw [hic] at this
  simp only [installCalls] at this
  simp [this]

/-- C3 counterexample: with three descriptors where the second fails to parse,
the pass returns a parse error (so it does not return the identifiers of the
first and third as newly installed), and the third app is never installed. -/
theorem c3_counterexample :
    (installPass c3_env [] ["a.happ", "b.happ", "c.happ"]).2 =
      Except.error "read_from_file failed: b.happ" ∧
    Event.install "app3" ∉ (installPass c3_env [] ["a.happ", "b.happ", "c.happ"]).1 := by
  exact ⟨by rfl, by decide⟩

/-- C3 witness: the amended statement at the concrete three-descriptor
environment. -/
theorem c3_witness :
    installPass c3_env [] ["a.happ", "b.happ", "c.happ"] =
      (Event.install "app1" :: [], Except.error ("read_from_file failed: " ++ "b.happ")) ∧
    installCalls (installPass c3_env [] ["a.happ", "b.happ", "c.happ"]).1 = ["app1"] :=
  c3_failure_aborts_batch c3_env [] "a.happ" "b.happ" "c.happ"
    { manifest := { app_name := "app1" }, payload := [1] } { cell_info := [] } []
    (by rfl) (by decide) (by rfl) (by rfl) (by rfl) (by rfl)

/-- An init event produced for a cell is a zome call on that cell's id with the
unit payload. -/
lemma initEvent_some (env : Env) (c : CellInfo) (e : Event)
    (h : initEvent env c = some e) :
    ∃ cid z, cell_id c = some cid ∧ e = Event.initCall cid z encodeUnit := by
  rw [initEvent] at h
  cases hc : cell_id c with
  | none => simp only [hc] at h; exact Option.noConfusion h
  | some cid =>
    simp only [hc] at h
    cases hd : env.get_dna_definition cid.dna_hash with
    | none => simp only [hd] at h; exact Option.noConfusion h
    | some d =>
      simp only [hd] at h
      cases hz : d.coordinator_zomes.head? with
      | none => simp only [hz] at h; exact Option.noConfusion h
      | some z =>
        simp only [hz, Option.some.injEq] at h
        exact ⟨cid, z, rfl, h.symm⟩

/-- A successful run of the cell-initialization loop emits exactly one event
per qualifying cell, in order: the trace is the `filterMap` of `initEvent`. -/
lemma initCells_ok_trace (env : Env) :
    ∀ (cells : List CellInfo) (evs : List Event),
    initCells env cells = (evs, Except.ok ()) →
    evs = cells.filterMap (initEvent env) := by
  intro cells
  induction cells with
  | nil =>
    intro evs h
    rw [initCells] at h
    simp only [Prod.mk.injEq] at h
    simp [h.1.symm]
  | cons c rest ih =>
    intro evs h
    rw [initCells] at h
    rw [List.filterMap_cons, initEvent]
    cases hc : cell_id c with
    | none =>
      simp only [hc] at h ⊢
      exact ih evs h
    | some cid =>
      simp only [hc] at h ⊢
      cases hd : env.get_dna_definition cid.dna_hash with
      | none => simp only [hd] at h; simp at h
      | some d =>
        simp only [hd] at h ⊢
        cases hz : d.coordinator_zomes.head? with
        | none =>
          simp only [hz] at h ⊢
          exact ih evs h
        | some z =>
          simp only [hz] at h ⊢
          cases hcz : env.call_zome_ok cid z with
          | false => simp only [hcz] at h; simp at h
          | true =>
            simp only [hcz, if_true, Prod.mk.injEq] at h
            have hrest : initCells env rest = ((initCells env rest).1, Except.ok ()) := by
              rw [← h.2]
            rw [← h.1]
            exact congrArg _ (ih (initCells env rest).1 hrest)

/-- If every listed cell with a given cell id produces no init event, the
trace contains no zome call on that cell id. -/
lemma initCallsFor_zero (env : Env) :
    ∀ (cells : List CellInfo) (cid : CellId),
    (∀ c ∈ cells, cell_id c = some cid → initEvent env c = none) →
    initCallsFor (cells.filterMap (initEvent env)) cid = 0 := by
  intro cells
  induction cells with
  | nil => intro cid _; rfl
  | cons c rest ih =>
    intro cid hall
    rw [List.filterMap_cons]
    cases he : initEvent env c with
    | none => exact ih cid (fun c' hc' => hall c' (List.mem_cons_of_mem _ hc'))
    | some e =>
      obtain ⟨cid', z, hcid', rfl⟩ := initEvent_some env c e he
      have hne : cid' ≠ cid := by
        intro hEq
        subst hEq
        have h2 := hall c (List.mem_cons_self ..) hcid'
        rw [h2] at he
        exact Option.noConfusion he
      rw [initCallsFor, List.filter_cons]
      have : (eventCell (Event.initCall cid' z encodeUnit) == some cid) = false := by
        simp [eventCell, hne]
      rw [this]
      exact ih cid (fun c' hc' => hall c' (List.mem_cons_of_mem _ hc'))

/-- When the reported cell ids are distinct, the number of zome calls on a
given cell id is 1 or 0 according to whether that cell produces an init
event. -/
lemma initCallsFor_unique (env : Env) :
    ∀ (cells : List CellInfo) (cid : CellId),
    (cells.filterMap cell_id).Nodup →
    ∀ c0 ∈ cells, cell_id c0 = some cid →
    initCallsFor (cells.filterMap (initEvent env)) cid =
      (if (initEvent env c0).isSome then 1 else 0) := by
  intro cells
  induction cells with
  | nil => intro cid _ c0 h0; simp at h0
  | cons c rest ih =>
    intro cid hnd c0 h0 hc0
    rcases List.mem_cons.mp h0 with rfl | h0'
    · -- c0 is the head
      have hfm : (c0 :: rest).filterMap cell_id = cid :: rest.filterMap cell_id := by
        rw [List.filterMap_cons, hc0]
      rw [hfm] at hnd
      have hnotin : cid ∉ rest.filterMap cell_id := (List.nodup_cons.mp hnd).1
      have hrest0 : initCallsFor (rest.filterMap (initEvent env)) cid = 0 := by
        refine initCallsFor_zero env rest cid ?_
        intro c' hc' hcid'
        exact absurd (List.mem_filterMap.mpr ⟨c', hc', hcid'⟩) hnotin
      rw [List.filterMap_cons]
      cases he : initEvent env c0 with
      | none => simpa [he] using hrest0
      | some e =>
        obtain ⟨cid', z, hcid', rfl⟩ := initEvent_some env c0 e he
        rw [hcid'] at hc0
        have : cid' = cid := Option.some.injEq .. |>.mp hc0
        subst this
        rw [initCallsFor, List.filter_cons]
        have hbeq : (eventCell (Event.initCall cid' z encodeUnit) == some cid') = true := by
          simp [eventCell]
        rw [hbeq]
        simp only [he, Option.isSome_some, if_true, List.length_cons]
        rw [initCallsFor] at hrest0
        rw [hrest0]
    · -- c0 is in the tail
      have hcidin : cid ∈ rest.filterMap cell_id := List.mem_filterMap.mpr ⟨c0, h0', hc0⟩
      rw [List.filterMap_cons]
      cases hcc : cell_id c with
      | none =>
        have hndr : (rest.filterMap cell_id).Nodup := by
          rw [List.filterMap_cons, hcc] at hnd
          exact hnd
        cases he : initEvent env c with
        | none => exact ih cid hndr c0 h0' hc0
        | some e =>
          obtain ⟨cid', z, hcid', rfl⟩ := initEvent_some env c e he
          rw [hcc] at hcid'
          exact Option.noConfusion hcid'
      | some cidc =>
        have hnd' : (cidc :: rest.filterMap cell_id).Nodup := by
          rw [List.filterMap_cons, hcc] at hnd
          exact hnd
        have hndr : (rest.filterMap cell_id).Nodup := (List.nodup_cons.mp hnd').2
        have hnec : cidc ≠ cid := by
          intro hEq
          subst hEq
          exact (List.nodup_cons.mp hnd').1 hcidin
        cases he : initEvent env c with
        | none => exact ih cid hndr c0 h0' hc0
        | some e =>
          obtain ⟨cid', z, hcid', rfl⟩ := initEvent_some env c e he
          rw [hcc] at hcid'
          obtain rfl : cidc = cid' := by injection hcid'
          
          rw [initCallsFor, List.filter_cons]
          have hbeq : (eventCell (Event.initCall cidc z encodeUnit) == some cid) = false := by
            simp [eventCell]
            intro hEq
            exact absurd hEq hnec
          rw [hbeq]
          exact ih cid hndr c0 h0' hc0

/-- Cells whose DNA definitions have no coordinator zomes are all skipped and
the initialization loop succeeds with an empty trace. -/
lemma initCells_all_skipped (env : Env) :
    ∀ cells : List CellInfo,
    (∀ c ∈ cells, ∀ cid, cell_id c = some cid →
      ∃ d, env.get_dna_definition cid.dna_hash = some d ∧ d.coordinator_zomes = []) →
    initCells env cells = ([], Except.ok ()) := by
  intro cells
  induction cells with
  | nil => intro _; rfl
  | cons c rest ih =>
    intro hall
    rw [initCells]
    cases hc : cell_id c with
    | none =>
      dsimp only
      exact ih (fun c' h' => hall c' (List.mem_cons_of_mem _ h'))
    | some cid =>
      obtain ⟨d, hd, hde⟩ := hall c (List.mem_cons_self ..) cid hc
      simp only [hd, hde, List.head?]
      exact ih (fun c' h' => hall c' (List.mem_cons_of_mem _ h'))

/-- C8: on a successful initialization of a freshly installed app whose
reported cell ids are distinct, every emitted event is a zome call with the
empty (unit) payload; each provisioned cell whose fetched DNA definition has
at least one coordinator zome receives exactly one such call, a provisioned
cell with no coordinator zome receives none, and a cell list in which no cell
has a coordinator zome initializes successfully with no calls (skipped, not
an error). -/
theorem c8_init_called_once_per_cell (env : Env) (cells : List CellInfo)
    (evs : List Event)
    (hok : initCells env cells = (evs, Except.ok ()))
    (hnd : (cells.filterMap cell_id).Nodup) :
    (∀ e ∈ evs, ∃ cid z, e = Event.initCall cid z encodeUnit) ∧
    (∀ cid, CellInfo.Provisioned cid ∈ cells →
      ∀ d, env.get_dna_definition cid.dna_hash = some d →
        (d.coordinator_zomes ≠ [] → initCallsFor evs cid = 1) ∧
        (d.coordinator_zomes = [] → initCallsFor evs cid = 0)) ∧
    (∀ cells2 : List CellInfo,
      (∀ c ∈ cells2, ∀ cid, cell_id c = some cid →
        ∃ d, env.get_dna_definition cid.dna_hash = some d ∧ d.coordinator_zomes = []) →
      initCells env cells2 = ([], Except.ok ())) := by
  have htr := initCells_ok_trace env cells evs hok
  refine ⟨?_, ?_, initCells_all_skipped env⟩
  · intro e he
    rw [htr] at he
    obtain ⟨c, _, hev⟩ := List.mem_filterMap.mp he
    obtain ⟨cid, z, _, hshape⟩ := initEvent_some env c e hev
    exact ⟨cid, z, hshape⟩
  · intro cid hmem d hd
    have hcid : cell_id (CellInfo.Provisioned cid) = some cid := rfl
    have hcount := initCallsFor_unique env cells cid hnd (CellInfo.Provisioned cid) hmem hcid
    rw [htr]
    constructor
    · intro hne
      cases hz : d.coordinator_zomes with
      | nil => exact absurd hz hne
      | cons z zs =>
        rw [hcount]
        have : initEvent env (CellInfo.Provisioned cid) =
            some (Event.initCall cid z encodeUnit) := by
          simp [initEvent, cell_id, hd, hz]
        simp [this]
    · intro hze
      rw [hcount]
      have : initEvent env (CellInfo.Provisioned cid) = none := by
        simp [initEvent, cell_id, hd, hze]
      simp [this]

/-- C8 witness: two provisioned cells, one with a coordinator zome (one init
call) and one without (no call). -/
theorem c8_witness :
    initCallsFor [Event.initCall ⟨1, 10⟩ "main" encodeUnit] ⟨1, 10⟩ = 1 ∧
    initCallsFor [Event.initCall ⟨1, 10⟩ "main" encodeUnit] ⟨2, 20⟩ = 0 := by
  have h := c8_init_called_once_per_cell c8_env c8_cells
      [Event.initCall ⟨1, 10⟩ "main" encodeUnit] (by rfl) (by decide)
  exact ⟨(h.2.1 ⟨1, 10⟩ (by decide) { coordinator_zomes := ["main"] } (by rfl)).1 (by decide),
         (h.2.1 ⟨2, 20⟩ (by decide) { coordinator_zomes := [] } (by rfl)).2 rfl⟩

/-- The three outcomes of the shutdown-then-relaunch sequence. -/
lemma restartRuntime_cases (lo : Bool) (dd : String) (sd lk : Bool) :
    restartRuntime lo dd sd lk =
        ([Event.shutdown true, Event.launch ⟨dd, wan_config lo⟩], none) ∧ sd = true ∧ lk = true ∨
    restartRuntime lo dd sd lk = ([Event.shutdown true], some "launch failed") ∧
        sd = true ∧ lk = false ∨
    restartRuntime lo dd sd lk = ([Event.shutdown false], some "shutdown failed") ∧ sd = false := by
  cases sd <;> cases lk <;> simp [restartRuntime]

/-- The outcomes of the scheduled-reboot branch: clock error, not due,
or due with the three restart outcomes. -/
lemma scheduledCheck_cases (lo : Bool) (dd : String) (s : LoopState) (i : CycleInput)
    (acc : List Event) :
    scheduledCheck lo dd s i acc = (acc, CycleResult.fatal "elapsed failed") ∧
        i.now < s.last_boot_time ∨
    scheduledCheck lo dd s i acc = (acc, CycleResult.next s) ∧
        ¬ i.now < s.last_boot_time ∧ ¬ REBOOT_INTERVAL < i.now - s.last_boot_time ∨
    (¬ i.now < s.last_boot_time ∧ REBOOT_INTERVAL < i.now - s.last_boot_time ∧
      (scheduledCheck lo dd s i acc =
          (acc ++ [Event.logMsg schedLogMsg, Event.shutdown true,
                   Event.launch ⟨dd, wan_config lo⟩],
           CycleResult.next { s with last_boot_time := i.now }) ∧
         i.shutdown_ok_sched = true ∧ i.launch_ok_sched = true ∨
       scheduledCheck lo dd s i acc =
          (acc ++ [Event.logMsg schedLogMsg, Event.shutdown true],
           CycleResult.fatal "launch failed") ∧
         i.shutdown_ok_sched = true ∧ i.launch_ok_sched = false ∨
       scheduledCheck lo dd s i acc =
          (acc ++ [Event.logMsg schedLogMsg, Event.shutdown false],
           CycleResult.fatal "shutdown failed") ∧
         i.shutdown_ok_sched = false)) := by
  rw [scheduledCheck]
  by_cases h1 : i.now < s.last_boot_time
  · left
    exact ⟨by rw [if_pos h1], h1⟩
  · rw [if_neg h1]
    by_cases h2 : REBOOT_INTERVAL < i.now - s.last_boot_time
    · right; right
      refine ⟨h1, h2, ?_⟩
      rw [if_pos h2]
      rcases restartRuntime_cases lo dd i.shutdown_ok_sched i.launch_ok_sched with
        ⟨hr, hsd, hlk⟩ | ⟨hr, hsd, hlk⟩ | ⟨hr, hsd⟩
      · left
        rw [hr]
        exact ⟨rfl, hsd, hlk⟩
      · right; left
        rw [hr]
        exact ⟨rfl, hsd, hlk⟩
      · right; right
        rw [hr]
        exact ⟨rfl, hsd⟩
    · right; left
      rw [if_neg h2]
      exact ⟨rfl, h1, h2⟩

/-- The outcomes of one loop iteration, split on the reachability flip and the
flip restart's outcome. -/
lemma loopCycle_cases (lo : Bool) (dd : String) (s : LoopState) (i : CycleInput) :
    (s.last_can_connect = i.can_connect ∧
      loopCycle lo dd s i = scheduledCheck lo dd s i []) ∨
    (s.last_can_connect ≠ i.can_connect ∧
      (loopCycle lo dd s i =
          scheduledCheck lo dd { s with last_can_connect := i.can_connect } i
            [Event.logMsg (flipLogMsg i.can_connect), Event.shutdown true,
             Event.launch ⟨dd, wan_config lo⟩] ∧
         i.shutdown_ok_flip = true ∧ i.launch_ok_flip = true ∨
       loopCycle lo dd s i =
          ([Event.logMsg (flipLogMsg i.can_connect), Event.shutdown true],
           CycleResult.fatal "launch failed") ∧
         i.shutdown_ok_flip = true ∧ i.launch_ok_flip = false ∨
       loopCycle lo dd s i =
          ([Event.logMsg (flipLogMsg i.can_connect), Event.shutdown false],
           CycleResult.fatal "shutdown failed") ∧
         i.shutdown_ok_flip = false)) := by
  rw [loopCycle]
  by_cases hf : s.last_can_connect ≠ i.can_connect
  · right
    refine ⟨hf, ?_⟩
    rw [if_pos hf]
    rcases restartRuntime_cases lo dd i.shutdown_ok_flip i.launch_ok_flip with
      ⟨hr, hsd, hlk⟩ | ⟨hr, hsd, hlk⟩ | ⟨hr, hsd⟩
    · left
      rw [hr]
      exact ⟨rfl, hsd, hlk⟩
    · right; left
      rw [hr]
      exact ⟨rfl, hsd, hlk⟩
    · right; right
      rw [hr]
      exact ⟨rfl, hsd⟩
  · left
    push_neg at hf
    exact ⟨hf, by rw [if_neg (by simp [hf])]⟩

/-- The scheduled-reboot log line differs from both flip log lines. -/
lemma sched_ne_flip (b : Bool) : schedLogMsg ≠ flipLogMsg b := by
  cases b <;> decide

/-- No scheduled reboot fires in a cycle whose wall-clock instant is within
the reboot interval of the recorded last boot time. -/
lemma noFire_within (lo : Bool) (dd : String) (s2 : LoopState) (i2 : CycleInput)
    (hle : i2.now ≤ s2.last_boot_time + REBOOT_INTERVAL) :
    ¬ scheduledFired (loopCycle lo dd s2 i2).1 := by
  have hnf : ¬ REBOOT_INTERVAL < i2.now - s2.last_boot_time := by omega
  rcases loopCycle_cases lo dd s2 i2 with ⟨hcc, heq⟩ | ⟨hcc, hcase⟩
  · rcases scheduledCheck_cases lo dd s2 i2 [] with ⟨he, _⟩ | ⟨he, _⟩ | ⟨_, hfire, _⟩
    · rw [heq, he]
      simp [scheduledFired]
    · rw [heq, he]
      simp [scheduledFired]
    · exact absurd hfire hnf
  · rcases hcase with ⟨heq, _, _⟩ | ⟨heq, _, _⟩ | ⟨heq, _⟩
    · rcases scheduledCheck_cases lo dd { s2 with last_can_connect := i2.can_connect } i2
        [Event.logMsg (flipLogMsg i2.can_connect), Event.shutdown true,
         Event.launch ⟨dd, wan_config lo⟩] with ⟨he, _⟩ | ⟨he, _⟩ | ⟨_, hfire, _⟩
      · rw [heq, he]
        simp [scheduledFired, sched_ne_flip]
      · rw [heq, he]
        simp [scheduledFired, sched_ne_flip]
      · exact absurd hfire hnf
    · rw [heq]
      simp [scheduledFired, sched_ne_flip]
    · rw [heq]
      simp [scheduledFired, sched_ne_flip]

/-- The four ways a loop iteration can continue: neither trigger, scheduled
only, flip only, or both, with the exact trace and successor state of each. -/
lemma loopCycle_next_cases (lo : Bool) (dd : String) (s : LoopState) (i : CycleInput)
    (s' : LoopState) (h : (loopCycle lo dd s i).2 = CycleResult.next s') :
    ¬ i.now < s.last_boot_time ∧
    ((s.last_can_connect = i.can_connect ∧ ¬ REBOOT_INTERVAL < i.now - s.last_boot_time ∧
        (loopCycle lo dd s i).1 = [] ∧ s' = s) ∨
     (s.last_can_connect = i.can_connect ∧ REBOOT_INTERVAL < i.now - s.last_boot_time ∧
        (loopCycle lo dd s i).1 =
          [Event.logMsg schedLogMsg, Event.shutdown true, Event.launch ⟨dd, wan_config lo⟩] ∧
        s' = { s with last_boot_time := i.now }) ∨
     (s.last_can_connect ≠ i.can_connect ∧ ¬ REBOOT_INTERVAL < i.now - s.last_boot_time ∧
        (loopCycle lo dd s i).1 =
          [Event.logMsg (flipLogMsg i.can_connect), Event.shutdown true,
           Event.launch ⟨dd, wan_config lo⟩] ∧
        s' = { s with last_can_connect := i.can_connect }) ∨
     (s.last_can_connect ≠ i.can_connect ∧ REBOOT_INTERVAL < i.now - s.last_boot_time ∧
        (loopCycle lo dd s i).1 =
          [Event.logMsg (flipLogMsg i.can_connect), Event.shutdown true,
           Event.launch ⟨dd, wan_config lo⟩,
           Event.logMsg schedLogMsg, Event.shutdown true,
           Event.launch ⟨dd, wan_config lo⟩] ∧
        s' = ⟨i.can_connect, i.now⟩)) := by
  rcases loopCycle_cases lo dd s i with ⟨hcc, heq⟩ | ⟨hcc, hcase⟩
  · rcases scheduledCheck_cases lo dd s i [] with ⟨he, hlt⟩ | ⟨he, hlt, hnf⟩ | ⟨hlt, hfire, hsub⟩
    · rw [heq, he] at h
      simp at h
    · rw [heq, he] at h
      simp only [CycleResult.next.injEq] at h
      refine ⟨hlt, Or.inl ⟨hcc, hnf, ?_, h.symm⟩⟩
      rw [heq, he]
    · rcases hsub with ⟨he, _, _⟩ | ⟨he, _, _⟩ | ⟨he, _⟩
      · rw [heq, he] at h
        simp only [CycleResult.next.injEq] at h
        refine ⟨hlt, Or.inr (Or.inl ⟨hcc, hfire, ?_, h.symm⟩)⟩
        rw [heq, he]
        simp
      · rw [heq, he] at h
        simp at h
      · rw [heq, he] at h
        simp at h
  · rcases hcase with ⟨heq, _, _⟩ | ⟨heq, _, _⟩ | ⟨heq, _⟩
    · rcases scheduledCheck_cases lo dd { s with last_can_connect := i.can_connect } i
        [Event.logMsg (flipLogMsg i.can_connect), Event.shutdown true,
         Event.launch ⟨dd, wan_config lo⟩] with ⟨he, hlt⟩ | ⟨he, hlt, hnf⟩ | ⟨hlt, hfire, hsub⟩
      · rw [heq, he] at h
        simp at h
      · rw [heq, he] at h
        simp only [CycleResult.next.injEq] at h
        refine ⟨hlt, Or.inr (Or.inr (Or.inl ⟨hcc, hnf, ?_, h.symm⟩))⟩
        rw [heq, he]
      · rcases hsub with ⟨he, _, _⟩ | ⟨he, _, _⟩ | ⟨he, _⟩
        · rw [heq, he] at h
          simp only [CycleResult.next.injEq] at h
          refine ⟨hlt, Or.inr (Or.inr (Or.inr ⟨hcc, hfire, ?_, ?_⟩))⟩
          · rw [heq, he]
            simp
          · rw [← h]
        · rw [heq, he] at h
          simp at h
        · rw [heq, he] at h
          simp at h
    · rw [heq] at h
      simp at h
    · rw [heq] at h
      simp at h

/-- C4: the code evaluated at the failing input.  With the LAN-only flag unset
and the relay having just become unreachable, the cycle logs "Changing from
WAN only to LAN only" but relaunches the runtime with the WAN-enabled
configuration: the relaunch configuration is computed from the lan_only flag
alone, never from the probe result, contradicting both the log line and the
claimed LAN-only relaunch. -/
theorem c4_unreachable_flip_relaunches_wan :
    loopCycle false "d" ⟨true, 0⟩ ⟨false, 100, true, true, true, true⟩ =
      ([Event.logMsg "Changing from WAN only to LAN only", Event.shutdown true,
        Event.launch ⟨"d", some { signal_url := SIGNAL_URL, bootstrap_url := BOOTSTRAP_URL,
                                  ice_servers_urls := [] }⟩],
       CycleResult.next ⟨false, 0⟩) ∧
    (∀ cfg ∈ launchedConfigs
        (loopCycle false "d" ⟨true, 0⟩ ⟨false, 100, true, true, true, true⟩).1,
      cfg.wan ≠ none) := by
  exact ⟨by rfl, by decide⟩

/-- C5 (amended): in a cycle that continues, the scheduled restart fires
exactly when the wall-clock time since the last scheduled reboot (or process
start) — not since the last relaunch — strictly exceeds the 30-minute
ceiling, regardless of reachability; firing resets the timer to the current
instant, every relaunch in the cycle uses the configuration determined by the
lan_only flag (mode unchanged), and no further scheduled restart fires within
the following 30 minutes (at most once per ceiling crossing). -/
theorem c5_scheduled_restart_timer (lo : Bool) (dd : String) (s : LoopState)
    (i : CycleInput) (s' : LoopState)
    (h : (loopCycle lo dd s i).2 = CycleResult.next s') :
    (scheduledFired (loopCycle lo dd s i).1 ↔ REBOOT_INTERVAL < i.now - s.last_boot_time) ∧
    s'.last_boot_time =
      (if REBOOT_INTERVAL < i.now - s.last_boot_time then i.now else s.last_boot_time) ∧
    s'.last_can_connect = i.can_connect ∧
    (∀ cfg ∈ launchedConfigs (loopCycle lo dd s i).1, cfg = ⟨dd, wan_config lo⟩) ∧
    (∀ i2 : CycleInput, i2.now ≤ s'.last_boot_time + REBOOT_INTERVAL →
      ¬ scheduledFired (loopCycle lo dd s' i2).1) := by
  rcases loopCycle_next_cases lo dd s i s' h with
    ⟨hlt, ⟨hcc, hnf, htr, hs⟩ | ⟨hcc, hfire, htr, hs⟩ | ⟨hcc, hnf, htr, hs⟩ | ⟨hcc, hfire, htr, hs⟩⟩
  · subst hs
    refine ⟨by rw [htr]; simp [scheduledFired, hnf], by rw [if_neg hnf], hcc, ?_, ?_⟩
    · rw [htr]
      simp [launchedConfigs]
    · intro i2 hle
      exact noFire_within lo dd _ i2 hle
  · subst hs
    refine ⟨by rw [htr]; simp [scheduledFired, hfire], by rw [if_pos hfire], hcc, ?_, ?_⟩
    · rw [htr]
      simp [launchedConfigs]
    · intro i2 hle
      exact noFire_within lo dd _ i2 hle
  · subst hs
    refine ⟨by rw [htr]; simp [scheduledFired, sched_ne_flip, hnf], by rw [if_neg hnf], rfl, ?_, ?_⟩
    · rw [htr]
      simp [launchedConfigs]
    · intro i2 hle
      exact noFire_within lo dd _ i2 hle
  · subst hs
    refine ⟨by rw [htr]; simp [scheduledFired, hfire], by rw [if_pos hfire], rfl, ?_, ?_⟩
    · rw [htr]
      simp [launchedConfigs]
    · intro i2 hle
      exact noFire_within lo dd _ i2 hle

/-- C5 witness: a concrete cycle at 1801 s with timer at 0 fires the scheduled
restart and resets the timer. -/
theorem c5_witness :
    (scheduledFired (loopCycle false "d" ⟨false, 0⟩ ⟨false, 1801, true, true, true, true⟩).1 ↔
      REBOOT_INTERVAL < 1801 - 0) ∧
    (⟨false, 1801⟩ : LoopState).last_boot_time =
      (if REBOOT_INTERVAL < 1801 - 0 then 1801 else 0) ∧
    (⟨false, 1801⟩ : LoopState).last_can_connect = false ∧
    (∀ cfg ∈ launchedConfigs
        (loopCycle false "d" ⟨false, 0⟩ ⟨false, 1801, true, true, true, true⟩).1,
      cfg = ⟨"d", wan_config false⟩) ∧
    (∀ i2 : CycleInput, i2.now ≤ (⟨false, 1801⟩ : LoopState).last_boot_time + REBOOT_INTERVAL →
      ¬ scheduledFired (loopCycle false "d" ⟨false, 1801⟩ i2).1) :=
  c5_scheduled_restart_timer false "d" ⟨false, 0⟩ ⟨false, 1801, true, true, true, true⟩
    ⟨false, 1801⟩ (by rfl)

/-- C5 counterexample: a reachability-flip cycle at 1700 s relaunches the
runtime (one launch event) without resetting the timer, and the next cycle at
1801 s fires the scheduled restart although only 101 s — far below the
30-minute ceiling — have passed since that last (re)launch; so the restart
does not fire "exactly when time since the last (re)launch exceeds the
ceiling". -/
theorem c5_counterexample :
    (launchedConfigs (loopCycle false "d" ⟨true, 0⟩ ⟨false, 1700, true, true, true, true⟩).1).length = 1 ∧
    (loopCycle false "d" ⟨true, 0⟩ ⟨false, 1700, true, true, true, true⟩).2 =
      CycleResult.next ⟨false, 0⟩ ∧
    scheduledFired (loopCycle false "d" ⟨false, 0⟩ ⟨false, 1801, true, true, true, true⟩).1 ∧
    ¬ REBOOT_INTERVAL < 1801 - 1700 := by decide

/-- C6 (amended): when the reachability flip and the scheduled restart fire in
the same polling cycle (and all shutdowns and launches succeed), the cycle
performs two full restart cycles back to back — two successful shutdowns and
two launches, the flip restart first and the scheduled restart second — each
launched with the configuration determined by the lan_only flag. -/
theorem c6_both_triggers_two_restarts (lo : Bool) (dd : String) (s : LoopState)
    (i : CycleInput)
    (hflip : s.last_can_connect ≠ i.can_connect)
    (hnb : ¬ i.now < s.last_boot_time)
    (hfire : REBOOT_INTERVAL < i.now - s.last_boot_time)
    (hsd1 : i.shutdown_ok_flip = true) (hl1 : i.launch_ok_flip = true)
    (hsd2 : i.shutdown_ok_sched = true) (hl2 : i.launch_ok_sched = true) :
    loopCycle lo dd s i =
      ([Event.logMsg (flipLogMsg i.can_connect), Event.shutdown true,
        Event.launch ⟨dd, wan_config lo⟩,
        Event.logMsg schedLogMsg, Event.shutdown true, Event.launch ⟨dd, wan_config lo⟩],
       CycleResult.next ⟨i.can_connect, i.now⟩) ∧
    (launchedConfigs (loopCycle lo dd s i).1).length = 2 ∧
    ((loopCycle lo dd s i).1.filter isShutdownOk).length = 2 := by
  have hmain : loopCycle lo dd s i =
      ([Event.logMsg (flipLogMsg i.can_connect), Event.shutdown true,
        Event.launch ⟨dd, wan_config lo⟩,
        Event.logMsg schedLogMsg, Event.shutdown true, Event.launch ⟨dd, wan_config lo⟩],
       CycleResult.next ⟨i.can_connect, i.now⟩) := by
    rw [loopCycle, if_pos hflip, restartRuntime]
    simp only [hsd1, hl1, if_true]
    rw [scheduledCheck]
    simp only [hnb, if_false, if_neg hnb, if_pos hfire, restartRuntime, hsd2, hl2, if_true]
    rfl
  refine ⟨hmain, ?_, ?_⟩
  · rw [hmain]
    simp [launchedConfigs]
  · rw [hmain]
    simp [List.filter, isShutdownOk]

/-- C6 witness: the amended statement at a concrete both-triggers input. -/
theorem c6_witness :
    loopCycle false "d" ⟨true, 0⟩ ⟨false, 2000, true, true, true, true⟩ =
      ([Event.logMsg (flipLogMsg false), Event.shutdown true,
        Event.launch ⟨"d", wan_config false⟩,
        Event.logMsg schedLogMsg, Event.shutdown true, Event.launch ⟨"d", wan_config false⟩],
       CycleResult.next ⟨false, 2000⟩) ∧
    (launchedConfigs (loopCycle false "d" ⟨true, 0⟩ ⟨false, 2000, true, true, true, true⟩).1).length = 2 ∧
    ((loopCycle false "d" ⟨true, 0⟩ ⟨false, 2000, true, true, true, true⟩).1.filter
        isShutdownOk).length = 2 :=
  c6_both_triggers_two_restarts false "d" ⟨true, 0⟩ ⟨false, 2000, true, true, true, true⟩
    (by decide) (by decide) (by decide) rfl rfl rfl rfl

/-- C6 counterexample: at a cycle where both triggers fire, the trace contains
two launches and two shutdowns, not the single shutdown and single relaunch
the claim states. -/
theorem c6_counterexample :
    (launchedConfigs (loopCycle false "d" ⟨true, 0⟩ ⟨false, 2000, true, true, true, true⟩).1).length = 2 ∧
    ((loopCycle false "d" ⟨true, 0⟩ ⟨false, 2000, true, true, true, true⟩).1.filter
        isShutdownOk).length = 2 ∧
    ¬ (launchedConfigs (loopCycle false "d" ⟨true, 0⟩ ⟨false, 2000, true, true, true, true⟩).1).length = 1 := by
  decide

/-- C7: at most one runtime handle per storage directory.  In every possible
iteration trace, a launch only ever appears immediately after a successful
shutdown (and never first); if a shutdown fails it is the last event of the
trace (no launch follows) and the iteration ends fatally; and every launch
targets the same data directory. -/
theorem c7_single_handle_per_directory (lo : Bool) (dd : String) (s : LoopState)
    (i : CycleInput) :
    List.Chain' (fun a b => isLaunch b = true → a = Event.shutdown true)
      (loopCycle lo dd s i).1 ∧
    (∀ e, (loopCycle lo dd s i).1.head? = some e → isLaunch e = false) ∧
    (Event.shutdown false ∈ (loopCycle lo dd s i).1 →
      (loopCycle lo dd s i).1.getLast? = some (Event.shutdown false) ∧
      ∃ m, (loopCycle lo dd s i).2 = CycleResult.fatal m) ∧
    (∀ cfg ∈ launchedConfigs (loopCycle lo dd s i).1, cfg.data_dir = dd) := by
  rcases loopCycle_cases lo dd s i with ⟨hcc, heq⟩ | ⟨hcc, hcase⟩
  · rcases scheduledCheck_cases lo dd s i [] with ⟨he, _⟩ | ⟨he, _⟩ | ⟨_, _, hsub⟩
    · rw [heq, he]
      exact ⟨by simp, by simp, by simp, by simp [launchedConfigs]⟩
    · rw [heq, he]
      exact ⟨by simp, by simp, by simp, by simp [launchedConfigs]⟩
    · rcases hsub with ⟨he, _, _⟩ | ⟨he, _, _⟩ | ⟨he, _⟩
      · rw [heq, he]
        refine ⟨by simp [List.chain'_cons, isLaunch], by simp [isLaunch], ?_,
          by simp [launchedConfigs]⟩
        intro hm
        simp at hm
      · rw [heq, he]
        refine ⟨by simp [List.chain'_cons, isLaunch], by simp [isLaunch], ?_,
          by simp [launchedConfigs]⟩
        intro hm
        simp at hm
      · rw [heq, he]
        refine ⟨by simp [List.chain'_cons, isLaunch], by simp [isLaunch], ?_,
          by simp [launchedConfigs]⟩
        intro _
        exact ⟨by rfl, "shutdown failed", by rfl⟩
  · rcases hcase with ⟨heq, _, _⟩ | ⟨heq, _, _⟩ | ⟨heq, _⟩
    · rcases scheduledCheck_cases lo dd { s with last_can_connect := i.can_connect } i
        [Event.logMsg (flipLogMsg i.can_connect), Event.shutdown true,
         Event.launch ⟨dd, wan_config lo⟩] with ⟨he, _⟩ | ⟨he, _⟩ | ⟨_, _, hsub⟩
      · rw [heq, he]
        refine ⟨by simp [List.chain'_cons, isLaunch], by simp [isLaunch], ?_,
          by simp [launchedConfigs]⟩
        intro hm
        simp at hm
      · rw [heq, he]
        refine ⟨by simp [List.chain'_cons, isLaunch], by simp [isLaunch], ?_,
          by simp [launchedConfigs]⟩
        intro hm
        simp at hm
      · rcases hsub with ⟨he, _, _⟩ | ⟨he, _, _⟩ | ⟨he, _⟩
        · rw [heq, he]
          refine ⟨by simp [List.chain'_cons, isLaunch], by simp [isLaunch], ?_,
            by simp [launchedConfigs]⟩
          intro hm
          simp at hm
        · rw [heq, he]
          refine ⟨by simp [List.chain'_cons, isLaunch], by simp [isLaunch], ?_,
            by simp [launchedConfigs]⟩
          intro hm
          simp at hm
        · rw [heq, he]
          refine ⟨by simp [List.chain'_cons, isLaunch], by simp [isLaunch], ?_,
            by simp [launchedConfigs]⟩
          intro _
          exact ⟨by rfl, "shutdown failed", by rfl⟩
    · rw [heq]
      refine ⟨by simp [List.chain'_cons, isLaunch], by simp [isLaunch], ?_,
        by simp [launchedConfigs]⟩
      intro hm
      simp at hm
    · rw [heq]
      refine ⟨by simp [List.chain'_cons, isLaunch], by simp [isLaunch], ?_,
        by simp [launchedConfigs]⟩
      intro _
      exact ⟨by rfl, "shutdown failed", by rfl⟩

/-- C7 witness: with a failing shutdown in the flip branch, the trace ends at
the failed shutdown and the cycle is fatal. -/
theorem c7_witness :
    (loopCycle false "d" ⟨true, 0⟩ ⟨false, 100, false, true, true, true⟩).1.getLast? =
      some (Event.shutdown false) ∧
    ∃ m, (loopCycle false "d" ⟨true, 0⟩ ⟨false, 100, false, true, true, true⟩).2 =
      CycleResult.fatal m :=
  (c7_single_handle_per_directory false "d" ⟨true, 0⟩
    ⟨false, 100, false, true, true, true⟩).2.2.1 (by decide)

/-- C10: the scheduled-restart timer is reset only by a scheduled restart.
In any cycle that continues without the scheduled branch firing — including
one that performs a reachability-flip relaunch — the recorded last boot time
is unchanged; concretely, a flip cycle at 1700 s relaunches the runtime
without touching the timer, and the cycle at 1801 s fires the scheduled
restart only 101 s (less than 30 minutes) after that relaunch. -/
theorem c10_flip_does_not_reset_timer :
    (∀ (lo : Bool) (dd : String) (s : LoopState) (i : CycleInput) (s' : LoopState),
      (loopCycle lo dd s i).2 = CycleResult.next s' →
      ¬ scheduledFired (loopCycle lo dd s i).1 →
      s'.last_boot_time = s.last_boot_time) ∧
    ((launchedConfigs
        (loopCycle false "d" ⟨true, 0⟩ ⟨false, 1700, true, true, true, true⟩).1).length = 1 ∧
     (loopCycle false "d" ⟨true, 0⟩ ⟨false, 1700, true, true, true, true⟩).2 =
       CycleResult.next ⟨false, 0⟩ ∧
     scheduledFired (loopCycle false "d" ⟨false, 0⟩ ⟨false, 1801, true, true, true, true⟩).1 ∧
     1801 - 1700 < REBOOT_INTERVAL) := by
  constructor
  · intro lo dd s i s' h hnf
    rcases loopCycle_next_cases lo dd s i s' h with
      ⟨_, ⟨_, _, _, hs⟩ | ⟨_, hfire, htr, hs⟩ | ⟨_, _, _, hs⟩ | ⟨_, hfire, htr, hs⟩⟩
    · subst hs; rfl
    · exact absurd (by rw [htr]; simp [scheduledFired]) hnf
    · subst hs; rfl
    · exact absurd (by rw [htr]; simp [scheduledFired]) hnf
  · decide

/-- C10 witness: the timer-preservation statement applied to the concrete flip
cycle at 1700 s. -/
theorem c10_witness :
    (⟨false, 0⟩ : LoopState).last_boot_time = (⟨true, 0⟩ : LoopState).last_boot_time :=
  c10_flip_does_not_reset_timer.1 false "d" ⟨true, 0⟩ ⟨false, 1700, true, true, true, true⟩
    ⟨false, 0⟩ (by rfl) (by decide)
